import Mathlib

/-!
Shallow embedding of the Speak-sharp backend (`src/backend/app/main.py`,
primary analysis pipeline, and `src/app/main.py`, the second pipeline
variant), together with proofs about the analysis endpoint, its
composite-score aggregation, validation, failure handling, resource
cleanup and the save endpoint.

External collaborators (the whisper model, librosa, the seven scorer
modules under `app.models`, and Firestore) are modelled as oracles: each
oracle field is the outcome of that external call during one invocation
of the endpoint.  Python floats are modelled as rationals, Python
exceptions as an explicit error type threaded with `Except`.
-/

/-- Python exception values as they matter to the handlers: FastAPI
`HTTPException(status_code, detail)` (which subclasses `Exception`), and
any other exception carrying its `str(e)` message. -/
inductive PyExc where
  | httpException (status : Nat) (detail : String)
  | exc (message : String)
deriving DecidableEq, Repr

/-- Python `str(e)` on an exception: Starlette `HTTPException.__str__`
prints `"{status_code}: {detail}"`; other exceptions print their message. -/
def pyStr : PyExc → String
  | .httpException status detail => toString status ++ ": " ++ detail
  | .exc message => message

/-- Outcome of one HTTP request: a 200 response with a JSON body, or an
error response produced from a raised `HTTPException`. -/
inductive HttpOutcome (α : Type) where
  | ok (body : α)
  | err (status : Nat) (detail : String)
deriving DecidableEq, Repr

/-- Python `str.lower` on one character, restricted to its ASCII action
(the allow-listed extensions are pure ASCII, so non-ASCII case mappings
cannot change the accept decision). `Char.toLower` maps exactly `A`-`Z`. -/
def pyLowerChar (c : Char) : Char := Char.toLower c

/-- Python `str.lower` on a string, character by character. -/
def pyLowerString (s : String) : String := ⟨s.data.map pyLowerChar⟩

/-- Extension part of posix `os.path.splitext` (CPython
`genericpath._splitext` with `sep = '/'`, `extsep = '.'`): the suffix of
the basename from its last dot, unless every character of the basename
before that dot is itself a dot (leading dots do not start an extension). -/
def splitextExtChars (p : List Char) : List Char :=
  let base := (p.reverse.takeWhile (fun c => c != '/')).reverse
  let revBase := base.reverse
  let afterDotRev := revBase.takeWhile (fun c => c != '.')
  match revBase.dropWhile (fun c => c != '.') with
  | [] => []
  | _ :: beforeRev =>
    if beforeRev.reverse.any (fun c => c != '.') then '.' :: afterDotRev.reverse
    else []

/-- The `[1]` component of `os.path.splitext` as used at
`src/backend/app/main.py:109`. -/
def splitext_ext (p : String) : String := ⟨splitextExtChars p.data⟩

/-- Suffix property of `pathlib.PurePath`: the part of the final path
component from its last dot `name[i:]`, provided `0 < i < len(name) - 1`
(used at `src/app/main.py:120`). -/
def pathSuffixChars (p : List Char) : List Char :=
  let name := (p.reverse.takeWhile (fun c => c != '/')).reverse
  let revName := name.reverse
  let afterDotRev := revName.takeWhile (fun c => c != '.')
  match revName.dropWhile (fun c => c != '.') with
  | [] => []
  | _ :: beforeRev =>
    if beforeRev.length > 0 ∧ afterDotRev.length > 0 then '.' :: afterDotRev.reverse
    else []

/-- String form of `Path(filename).suffix`. -/
def path_suffix (p : String) : String := ⟨pathSuffixChars p.data⟩

/-- Allow-list of `src/backend/app/main.py:108`. -/
def allowed_extensions : List String := [".wav", ".mp3", ".m4a", ".flac", ".ogg"]

/-- Lower-cased extension of the uploaded filename,
`os.path.splitext(audio.filename)[1].lower()` (`src/backend/app/main.py:109`). -/
def file_ext (filename : String) : String := pyLowerString (splitext_ext filename)

/-- Validation prefix of the backend `analyze_speech` handler
(`src/backend/app/main.py:104-114`): missing/empty filename and
extension allow-list checks, each raising `HTTPException(400, ...)`. -/
def validate_audio (filename : Option String) : Except PyExc Unit := do
  match filename with
  | none => throw (.httpException 400 "No audio file provided")
  | some f =>
    if f = "" then throw (.httpException 400 "No audio file provided")
    else if file_ext f ∉ allowed_extensions then
      throw (.httpException 400
        ("Invalid file type. Allowed: " ++ String.intercalate ", " allowed_extensions))
    else pure ()

/-- Allow-list of the second pipeline variant (`src/app/main.py:121`);
note it lacks `.flac`. -/
def allowed_extensions_v2 : List String := [".wav", ".mp3", ".m4a", ".ogg"]

/-- Lower-cased extension in the second variant,
`Path(file.filename).suffix.lower()` (`src/app/main.py:120`). -/
def file_ext_v2 (filename : String) : String := pyLowerString (path_suffix filename)

/-- Validation prefix of the v2 `analyze_speech` handler
(`src/app/main.py:117-125`). -/
def validate_audio_v2 (filename : Option String) : Except PyExc Unit := do
  match filename with
  | none => throw (.httpException 400 "No filename provided")
  | some f =>
    if f = "" then throw (.httpException 400 "No filename provided")
    else if file_ext_v2 f ∉ allowed_extensions_v2 then
      throw (.httpException 400
        ("Unsupported file type: " ++ file_ext_v2 f ++ ". Supported: .wav, .mp3, .m4a, .ogg"))
    else pure ()

/-- Python `int()` on a float: truncation toward zero. -/
def pyInt (q : ℚ) : ℤ := if 0 ≤ q then ⌊q⌋ else ⌈q⌉

/-- Python float floor-division `a // b` (the result is a whole-valued float). -/
def pyFloorDiv (a b : ℚ) : ℚ := (⌊a / b⌋ : ℚ)

/-- Python float modulo `a % b`, defined by `a - b * (a // b)`. -/
def pyMod (a b : ℚ) : ℚ := a - b * (⌊a / b⌋ : ℚ)

/-- Python format spec `02d`: zero-pad a (here always two-digit-bounded)
integer to width two. -/
def formatTwoDigits (n : ℤ) : String :=
  if 0 ≤ n ∧ n < 10 then "0" ++ toString n else toString n

/-- Duration formatting of `src/backend/app/main.py:140`:
`f"{int(actual_duration // 60)}:{int(actual_duration % 60):02d}"`. -/
def duration_str (d : ℚ) : String :=
  toString (pyInt (pyFloorDiv d 60)) ++ ":" ++ formatTwoDigits (pyInt (pyMod d 60))

/-- Rounding of a rational to an integer, half-to-even, the rule used by
Python `round`. -/
def roundHalfToEven (q : ℚ) : ℤ :=
  if q - ⌊q⌋ < 1/2 then ⌊q⌋
  else if 1/2 < q - ⌊q⌋ then ⌊q⌋ + 1
  else if ⌊q⌋ % 2 = 0 then ⌊q⌋ else ⌊q⌋ + 1

/-- Python `round(q, ndigits)` in the rational model. -/
def pyRound (ndigits : ℕ) (q : ℚ) : ℚ :=
  (roundHalfToEven (q * 10 ^ ndigits) : ℚ) / 10 ^ ndigits

/-- Vocabulary rescale of `src/backend/app/main.py:204`:
`(vocabulary_result['vocabulary_score'] / 100) * 20`. -/
def vocabulary_rescale (v : ℚ) : ℚ := v / 100 * 20

/-- Composite score of `src/backend/app/main.py:209-215`: the plain sum
of the five dimension scores. -/
def overall_score_sum (p m d e v : ℚ) : ℚ := p + m + d + e + v

/-- Time-aligned transcript segment as produced by
`transcript.process_transcription` (spec data model; payload passed
through the handler unchanged). `end` is a Lean keyword, so the source
field `end` is called `stop`. -/
structure TranscriptSegment where
  text : String
  start : ℚ
  stop : ℚ
  is_pause : Bool
deriving DecidableEq, Repr

/-- Combined outcome of step 1 (`transcript.transcribe_audio` plus
`transcript.process_transcription`, `src/backend/app/main.py:132-133`):
the raw whisper payload (opaque), the segment list with pause marks, and
the pause count. -/
structure TranscriptionData where
  raw : String
  withPauses : List TranscriptSegment
  pauseCount : ℕ
deriving DecidableEq, Repr

/-- Result dict of `filler_word_detection.analyze_filler_words`
(`src/backend/app/main.py:145`), keys read by the handler. -/
structure FillerData where
  total : ℕ
  density : ℚ
  perMinute : ℚ
deriving DecidableEq, Repr

/-- Result dict of `proficiency_evaluation.calculate_proficiency_score`
(`src/backend/app/main.py:155`): its `final_score` plus the rest of the
payload, opaque. -/
structure ProficiencyData where
  final_score : ℚ
  payload : String
deriving DecidableEq, Repr

/-- Scores sub-dict of a successful
`voice_modulation.analyze_voice_modulation` result
(`src/backend/app/main.py:171`). -/
structure ModulationScores where
  total_score : ℚ
  payload : String
deriving DecidableEq, Repr

/-- Result dict of `voice_modulation.analyze_voice_modulation`: either a
dict containing the key `error`, or a success dict with `scores`
(`src/backend/app/main.py:165-172`). -/
inductive ModulationData where
  | errorDict (message : String)
  | okDict (scores : ModulationScores)
deriving DecidableEq, Repr

/-- Result dict of `speech_development.evaluate_speech_development`
(`src/backend/app/main.py:176-181`): the two summed sub-scores plus the
rest of the payload, opaque. -/
structure DevelopmentData where
  structure_score : ℚ
  time_utilization_score : ℚ
  payload : String
deriving DecidableEq, Repr

/-- Result dict of `speech_effectiveness.evaluate_speech_effectiveness`
(`src/backend/app/main.py:186-192`). -/
structure EffectivenessData where
  total_score : ℚ
  payload : String
deriving DecidableEq, Repr

/-- Result dict of `vocabulary_evaluation.evaluate_speech`
(`src/backend/app/main.py:197-204`, `246-251`), keys read by the handler. -/
structure VocabularyData where
  vocabulary_score : ℚ
  lexical_diversity : ℚ
  unique_words : ℕ
  advanced_vocab_count : ℕ
  feedback : List String
deriving DecidableEq, Repr

/-- Outcomes of the external calls made by one invocation of the backend
`analyze_speech` handler.  Each stage is a call into code outside the
handler and may raise any Python exception, modelled as `Except PyExc`;
the voice-modulation scorer additionally signals failure in-band via an
`error` key in its result dict. -/
structure AnalyzeOracle where
  transcription : Except PyExc TranscriptionData
  load_duration : Except PyExc ℚ
  filler : Except PyExc FillerData
  pause : Except PyExc String
  proficiency : Except PyExc ProficiencyData
  modulation : Except PyExc ModulationData
  development : Except PyExc DevelopmentData
  effectiveness : Except PyExc EffectivenessData
  vocabulary : Except PyExc VocabularyData

/-- Form fields of a request to the backend `analyze_speech` endpoint
(`src/backend/app/main.py:82-87`).  `filename` is `audio.filename`,
which may be absent. -/
structure AnalyzeRequest where
  filename : Option String
  topic : String
  expected_duration : String
  user_id : String

/-- Status of a score dimension in the composite report: `Defaulted`
reifies the error branch of `src/backend/app/main.py:167-169`, where the
score is replaced by the constant 10.0 and the details payload by `{}`;
`Computed` reifies the success branch. -/
inductive ScoreStatus where
  | Computed
  | Defaulted
deriving DecidableEq, Repr

/-- The five rounded dimension scores of the response
(`src/backend/app/main.py:223-229`). -/
structure ScoresOut where
  proficiency : ℚ
  voice_modulation : ℚ
  speech_development : ℚ
  speech_effectiveness : ℚ
  vocabulary : ℚ
deriving DecidableEq, Repr

/-- Duration block of the response (`src/backend/app/main.py:231-235`). -/
structure DurationOut where
  actual : String
  expected : String
  seconds : ℚ
deriving DecidableEq, Repr

/-- Filler block of the response (`src/backend/app/main.py:236-240`). -/
structure FillerOut where
  total_filler_words : ℕ
  filler_density : ℚ
  filler_per_minute : ℚ
deriving DecidableEq, Repr

/-- Response body built at `src/backend/app/main.py:221-254`.
`overall_score_unrounded` is the intermediate value of line 209 before
the presentation rounding of line 222; `voice_modulation_status` is the
reified branch of lines 167-172 (its `Defaulted` case coincides with the
details payload being replaced by `{}` at line 243, modelled as `none`). -/
structure AnalyzeResults where
  overall_score : ℚ
  overall_score_unrounded : ℚ
  scores : ScoresOut
  transcription : List TranscriptSegment
  duration : DurationOut
  filler_analysis : FillerOut
  pause_analysis : String
  voice_modulation_status : ScoreStatus
  voice_modulation_details : Option ModulationScores
  topic : String
  user_id : String
deriving DecidableEq, Repr

/-- Steps 1-11 of the backend handler (`src/backend/app/main.py:130-254`),
run after validation and staging; any stage exception aborts the rest of
the chain exactly as a raised Python exception would. -/
def run_pipeline (req : AnalyzeRequest) (o : AnalyzeOracle) :
    Except PyExc AnalyzeResults := do
  let tr ← o.transcription
  let actual_duration ← o.load_duration
  let actual_duration_str := duration_str actual_duration
  let filler_analysis ← o.filler
  let pause_analysis ← o.pause
  let proficiency_result ← o.proficiency
  let modulation_result ← o.modulation
  let modulation_score : ℚ :=
    match modulation_result with
    | .errorDict _ => 10
    | .okDict s => s.total_score
  let development_result ← o.development
  let development_score :=
    development_result.structure_score + development_result.time_utilization_score
  let effectiveness_result ← o.effectiveness
  let effectiveness_score := effectiveness_result.total_score
  let vocabulary_result ← o.vocabulary
  let vocabulary_score := vocabulary_rescale vocabulary_result.vocabulary_score
  let overall_score := overall_score_sum proficiency_result.final_score
    modulation_score development_score effectiveness_score vocabulary_score
  pure {
    overall_score := pyRound 1 overall_score
    overall_score_unrounded := overall_score
    scores := {
      proficiency := pyRound 1 proficiency_result.final_score
      voice_modulation := pyRound 1 modulation_score
      speech_development := pyRound 1 development_score
      speech_effectiveness := pyRound 1 effectiveness_score
      vocabulary := pyRound 1 vocabulary_score }
    transcription := tr.withPauses
    duration := {
      actual := actual_duration_str
      expected := req.expected_duration
      seconds := pyRound 1 actual_duration }
    filler_analysis := {
      total_filler_words := filler_analysis.total
      filler_density := pyRound 3 filler_analysis.density
      filler_per_minute := filler_analysis.perMinute }
    pause_analysis := pause_analysis
    voice_modulation_status :=
      match modulation_result with
      | .errorDict _ => .Defaulted
      | .okDict _ => .Computed
    voice_modulation_details :=
      match modulation_result with
      | .errorDict _ => none
      | .okDict s => some s
    topic := req.topic
    user_id := req.user_id }

/-- State of the staged temporary audio file across one invocation:
whether the file currently exists on disk and how many times it has been
released (`os.unlink`). -/
structure TempFileState where
  onDisk : Bool
  releases : ℕ
deriving DecidableEq, Repr

/-- The `finally` block of both handlers
(`src/backend/app/main.py:281-288`, `src/app/main.py:176-183`): if a
temp path was assigned and the file still exists, unlink it. -/
def finally_cleanup (pathAssigned : Bool) (s : TempFileState) : TempFileState :=
  if pathAssigned ∧ s.onDisk then { onDisk := false, releases := s.releases + 1 }
  else s

/-- The `except Exception` clause of the backend handler
(`src/backend/app/main.py:270-279`).  Starlette `HTTPException`
subclasses `Exception`, so the validation 400s raised inside the `try`
block are caught here too and re-raised as
`HTTPException(500, "Analysis failed: " + str(e))`. -/
def backend_except_clause (r : Except PyExc AnalyzeResults) :
    HttpOutcome AnalyzeResults :=
  match r with
  | .ok results => .ok results
  | .error e => .err 500 ("Analysis failed: " ++ pyStr e)

/-- The backend `analyze_speech` handler (`src/backend/app/main.py:81-288`):
validation, staging of the temporary audio file, the pipeline, the
catch-all `except` clause, and the `finally` cleanup.  Returns the HTTP
outcome and the final state of the staged temporary resource. -/
def analyze_speech (req : AnalyzeRequest) (o : AnalyzeOracle) :
    HttpOutcome AnalyzeResults × TempFileState :=
  let step : Except PyExc AnalyzeResults × Bool × TempFileState :=
    match validate_audio req.filename with
    | .error e => (.error e, false, { onDisk := false, releases := 0 })
    | .ok _ => (run_pipeline req o, true, { onDisk := true, releases := 0 })
  (backend_except_clause step.1, finally_cleanup step.2.1 step.2.2)

/-- Outcomes of the external calls made by the v2 handler
(`src/app/main.py:137-166`): the analyzer service, the Firebase audio
upload, and the Firestore save. -/
structure AnalyzeOracleV2 where
  analysis : Except PyExc String
  upload : Except PyExc String
  save : Except PyExc Unit

/-- The v2 `analyze_speech` handler (`src/app/main.py:85-183`): its own
validation and allow-list, staging, three external calls, the same
catch-all `except` clause and `finally` cleanup shape. -/
def analyze_speech_v2 (filename : Option String) (o : AnalyzeOracleV2) :
    HttpOutcome String × TempFileState :=
  let body : Except PyExc String := do
    let result ← o.analysis
    let _audio_url ← o.upload
    let _ ← o.save
    pure result
  let step : Except PyExc String × Bool × TempFileState :=
    match validate_audio_v2 filename with
    | .error e => (.error e, false, { onDisk := false, releases := 0 })
    | .ok _ => (body, true, { onDisk := true, releases := 0 })
  let outcome : HttpOutcome String :=
    match step.1 with
    | .ok r => .ok r
    | .error e => .err 500 ("Analysis failed: " ++ pyStr e)
  (outcome, finally_cleanup step.2.1 step.2.2)

/-- Body of a 200 response, `none` for an error response. -/
def responseBody {α : Type} : HttpOutcome α → Option α
  | .ok b => some b
  | .err _ _ => none

/-- Whether the outcome is a 200 response. -/
def isSuccess {α : Type} : HttpOutcome α → Bool
  | .ok _ => true
  | .err _ _ => false

/-- Modelled from the spec (§4.3 DurationProbe): minutes obtained by
floor-division of the duration by 60, a colon, and the remaining whole
seconds zero-padded to two digits.  Written from the spec's words, to be
compared with the source's `duration_str`. -/
def spec_duration_format (q : ℚ) : String :=
  toString ⌊q / 60⌋ ++ ":" ++ formatTwoDigits (⌊q⌋ % 60)

/-- Sample transcription outcome used by concrete instantiations. -/
def sampleTranscription : TranscriptionData :=
  { raw := "whisper payload"
    withPauses := [{ text := "Leadership matters", start := 0, stop := 3, is_pause := false }]
    pauseCount := 2 }

/-- Sample oracle in which every external call succeeds, with the
dimension scores of the spec's worked scenario: proficiency 18,
voice modulation 15, speech development 8+8, effectiveness 14,
vocabulary 17 on the native 0-100 scale. -/
def sampleOracle : AnalyzeOracle :=
  { transcription := .ok sampleTranscription
    load_duration := .ok 180
    filler := .ok { total := 4, density := 1/50, perMinute := 8/5 }
    pause := .ok "pause payload"
    proficiency := .ok { final_score := 18, payload := "prof details" }
    modulation := .ok (.okDict { total_score := 15, payload := "mod details" })
    development := .ok { structure_score := 8, time_utilization_score := 8, payload := "dev details" }
    effectiveness := .ok { total_score := 14, payload := "eff details" }
    vocabulary := .ok { vocabulary_score := 17, lexical_diversity := 3/5, unique_words := 120,
                        advanced_vocab_count := 7, feedback := ["good range"] } }

/-- Sample request with a valid `.wav` filename. -/
def sampleRequest : AnalyzeRequest :=
  { filename := some "speech.wav"
    topic := "Leadership"
    expected_duration := "5-7 minutes"
    user_id := "user-1" }

/-- Oracle in which the proficiency scorer raises. -/
def oracleProficiencyFails : AnalyzeOracle :=
  { sampleOracle with proficiency := .error (.exc "proficiency scorer crashed") }

/-- Oracle in which the vocabulary scorer raises. -/
def oracleVocabularyFails : AnalyzeOracle :=
  { sampleOracle with vocabulary := .error (.exc "vocabulary scorer crashed") }

/-- Oracle in which the voice-modulation scorer reports failure in-band
(a result dict containing the key `error`). -/
def oracleModulationFails : AnalyzeOracle :=
  { sampleOracle with modulation := .ok (.errorDict "librosa decode failed") }

/-- Oracle in which the voice-modulation scorer succeeds but computes a
total score of 25, outside the 0-20 dimension range. -/
def oracleModulation25 : AnalyzeOracle :=
  { sampleOracle with modulation := .ok (.okDict { total_score := 25, payload := "mod details" }) }

/-- Names visible to the body of `save_speech_to_firebase` in
`src/backend/app/main.py`: the module imports (lines 1-23, of which the
firebase import binds only `db`), the module-level definitions, and the
function's locals.  The name `firestore` referenced at line 313 is not
among them, so evaluating it raises
`NameError: name 'firestore' is not defined`. -/
def save_speech_visible_names : List String :=
  ["os", "whisper", "librosa", "FastAPI", "File", "UploadFile", "Form", "HTTPException",
   "CORSMiddleware", "JSONResponse", "tempfile", "traceback", "load_dotenv",
   "filler_word_detection", "proficiency_evaluation", "transcript", "voice_modulation",
   "speech_development", "speech_effectiveness", "vocabulary_evaluation", "db",
   "app", "whisper_model", "startup_event", "root", "health_check", "analyze_speech",
   "save_speech_to_firebase", "json", "user_id", "speech_data", "data", "doc_ref"]

/-- Python name resolution inside `save_speech_to_firebase`: a name
evaluates successfully iff it is bound in the visible scopes, else a
`NameError` is raised. -/
def evalName (n : String) : Except PyExc Unit :=
  if n ∈ save_speech_visible_names then .ok ()
  else .error (.exc ("name '" ++ n ++ "' is not defined"))

/-- Success body of the save endpoint (`src/backend/app/main.py:317-321`). -/
structure SaveResponse where
  success : Bool
  document_id : String
  message : String
deriving DecidableEq, Repr

/-- The `save_speech_to_firebase` handler (`src/backend/app/main.py:290-327`).
`json_parse` is the outcome of `json.loads(speech_data)`; `doc_id` is the
document id the Firestore collaborator assigns to
`db.collection('speeches').document()`.  Building the dict passed to
`doc_ref.set` evaluates the module-level name `firestore` (line 313)
before the write can happen; any exception is caught and re-raised as
`HTTPException(500, "Failed to save speech: " + str(e))`. -/
def save_speech_to_firebase (user_id : String) (speech_data : String)
    (json_parse : Except PyExc String) (doc_id : String) : HttpOutcome SaveResponse :=
  let body : Except PyExc SaveResponse := do
    let _data ← json_parse
    let _ ← evalName "firestore"
    pure { success := true, document_id := doc_id, message := "Speech saved successfully" }
  match body with
  | .ok r => .ok r
  | .error e => .err 500 ("Failed to save speech: " ++ pyStr e)

/-- Helper: `Char.ofNat` of a valid scalar value round-trips to `toNat`. -/
lemma char_toNat_ofNat {n : ℕ} (h : n < 55296) : (Char.ofNat n).toNat = n := by
  unfold Char.ofNat
  rw [dif_pos (Or.inl h)]
  rfl

/-- Helper: lower-casing an ASCII uppercase letter adds 32 to its code. -/
lemma pyLowerChar_toNat_of_upper {c : Char} (h : 65 ≤ c.toNat ∧ c.toNat ≤ 90) :
    (pyLowerChar c).toNat = c.toNat + 32 := by
  unfold pyLowerChar Char.toLower
  rw [if_pos ⟨h.1, h.2⟩]
  exact char_toNat_ofNat (by omega)

/-- Helper: lower-casing fixes any character that is not an ASCII
uppercase letter. -/
lemma pyLowerChar_of_not_upper {c : Char} (h : ¬(65 ≤ c.toNat ∧ c.toNat ≤ 90)) :
    pyLowerChar c = c := by
  unfold pyLowerChar Char.toLower
  rw [if_neg (by exact_mod_cast h)]

/-- Helper: for a target character below code 65, lower-casing changes
neither which characters are equal to it. -/
lemma pyLowerChar_eq_low_iff {c c0 : Char} (h0 : c0.toNat < 65) :
    pyLowerChar c = c0 ↔ c = c0 := by
  by_cases hc : 65 ≤ c.toNat ∧ c.toNat ≤ 90
  · have ht := pyLowerChar_toNat_of_upper hc
    constructor
    · intro he
      have := congrArg Char.toNat he
      omega
    · intro he
      have := congrArg Char.toNat he
      omega
  · rw [pyLowerChar_of_not_upper hc]

/-- Helper: the slash test commutes with lower-casing. -/
lemma bne_pyLowerChar_slash (c : Char) : (pyLowerChar c != '/') = (c != '/') := by
  by_cases hc : c = '/'
  · subst hc; rfl
  · have h2 : pyLowerChar c ≠ '/' := fun he => hc ((pyLowerChar_eq_low_iff (by decide)).mp he)
    apply Bool.eq_iff_iff.mpr
    simp [bne_iff_ne, h2, hc]

/-- Helper: the dot test commutes with lower-casing. -/
lemma bne_pyLowerChar_dot (c : Char) : (pyLowerChar c != '.') = (c != '.') := by
  by_cases hc : c = '.'
  · subst hc; rfl
  · have h2 : pyLowerChar c ≠ '.' := fun he => hc ((pyLowerChar_eq_low_iff (by decide)).mp he)
    apply Bool.eq_iff_iff.mpr
    simp [bne_iff_ne, h2, hc]

/-- Helper: lower-casing is idempotent. -/
lemma pyLowerChar_idem (c : Char) : pyLowerChar (pyLowerChar c) = pyLowerChar c := by
  by_cases hc : 65 ≤ c.toNat ∧ c.toNat ≤ 90
  · have ht := pyLowerChar_toNat_of_upper hc
    exact pyLowerChar_of_not_upper (by omega)
  · rw [pyLowerChar_of_not_upper hc, pyLowerChar_of_not_upper hc]

/-- Helper: composition form of `bne_pyLowerChar_slash`. -/
lemma comp_slash : ((fun c => c != '/') ∘ pyLowerChar) = (fun c => c != '/') :=
  funext bne_pyLowerChar_slash

/-- Helper: composition form of `bne_pyLowerChar_dot`. -/
lemma comp_dot : ((fun c => c != '.') ∘ pyLowerChar) = (fun c => c != '.') :=
  funext bne_pyLowerChar_dot

/-- Helper: the dot is fixed by lower-casing. -/
lemma pyLowerChar_dot : pyLowerChar '.' = '.' := by decide

/-- Helper: `os.path.splitext`'s extension commutes with lower-casing of
the whole filename. -/
lemma splitextExtChars_map_lower (p : List Char) :
    splitextExtChars (p.map pyLowerChar) = (splitextExtChars p).map pyLowerChar := by
  simp only [splitextExtChars, ← List.map_reverse, List.takeWhile_map, List.dropWhile_map,
    comp_slash, comp_dot]
  cases h : ((((p.reverse.takeWhile (fun c => c != '/')).reverse).reverse).dropWhile
      (fun c => c != '.')) with
  | nil => simp
  | cons a t =>
    simp only [List.map_cons]
    rw [← List.map_reverse, List.any_map, comp_dot]
    by_cases hany : t.reverse.any (fun c => c != '.')
    · simp [hany, pyLowerChar_dot, List.map_reverse]
    · simp [hany]

/-- Helper: `pathlib` suffix commutes with lower-casing of the whole
filename. -/
lemma pathSuffixChars_map_lower (p : List Char) :
    pathSuffixChars (p.map pyLowerChar) = (pathSuffixChars p).map pyLowerChar := by
  simp only [pathSuffixChars, ← List.map_reverse, List.takeWhile_map, List.dropWhile_map,
    comp_slash, comp_dot]
  cases h : ((((p.reverse.takeWhile (fun c => c != '/')).reverse).reverse).dropWhile
      (fun c => c != '.')) with
  | nil => simp
  | cons a t =>
    simp only [List.map_cons, List.length_map, apply_ite (List.map pyLowerChar)]
    split
    · simp [List.map_reverse, pyLowerChar_dot]
    · rfl

/-- Helper: mapping an idempotent character function twice equals once. -/
lemma map_pyLowerChar_idem (l : List Char) :
    (l.map pyLowerChar).map pyLowerChar = l.map pyLowerChar := by
  rw [List.map_map]
  congr 1
  funext c
  exact pyLowerChar_idem c

/-- Helper: the backend's lower-cased extension is unchanged when the
filename is itself lower-cased first. -/
lemma file_ext_lower (f : String) : file_ext (pyLowerString f) = file_ext f := by
  unfold file_ext splitext_ext pyLowerString
  apply congrArg String.mk
  simp only [splitextExtChars_map_lower]
  exact map_pyLowerChar_idem _

/-- Helper: same for the v2 variant's extension. -/
lemma file_ext_v2_lower (f : String) : file_ext_v2 (pyLowerString f) = file_ext_v2 f := by
  unfold file_ext_v2 path_suffix pyLowerString
  apply congrArg String.mk
  simp only [pathSuffixChars_map_lower]
  exact map_pyLowerChar_idem _

/-- Helper: lower-casing preserves emptiness of the filename. -/
lemma pyLowerString_eq_empty_iff (s : String) : pyLowerString s = "" ↔ s = "" := by
  constructor
  · intro h
    have hd := congrArg String.data h
    simp only [pyLowerString] at hd
    exact String.ext (List.map_eq_nil_iff.mp hd)
  · intro h
    subst h
    rfl

/-- Helper: backend validation is invariant under lower-casing the
filename. -/
lemma validate_audio_lower (f : String) :
    validate_audio (some (pyLowerString f)) = validate_audio (some f) := by
  unfold validate_audio
  by_cases hf : f = ""
  · subst hf; rfl
  · have h1 : pyLowerString f ≠ "" := fun h => hf ((pyLowerString_eq_empty_iff f).mp h)
    simp only [h1, hf, if_neg, file_ext_lower]

/-- Helper: v2 validation is invariant under lower-casing the filename. -/
lemma validate_audio_v2_lower (f : String) :
    validate_audio_v2 (some (pyLowerString f)) = validate_audio_v2 (some f) := by
  unfold validate_audio_v2
  by_cases hf : f = ""
  · subst hf; rfl
  · have h1 : pyLowerString f ≠ "" := fun h => hf ((pyLowerString_eq_empty_iff f).mp h)
    simp only [h1, hf, if_neg, file_ext_v2_lower]

/-- Helper: bind of a successful `Except` reduces. -/
lemma except_bind_ok {ε α β : Type} (a : α) (f : α → Except ε β) :
    (Except.ok a : Except ε α) >>= f = f a := rfl

/-- Helper: bind of a failed `Except` short-circuits. -/
lemma except_bind_error {ε α β : Type} (e : ε) (f : α → Except ε β) :
    (Except.error e : Except ε α) >>= f = .error e := rfl

/-- Helper: Python `round(10.0, 1) = 10.0`. -/
lemma pyRound_one_ten : pyRound 1 10 = 10 := by
  norm_num [pyRound, roundHalfToEven]

/-- C7: for every non-negative duration in seconds, the backend's
formatted duration string consists of the minutes obtained by
floor-division by 60, a colon, and the remaining whole seconds
zero-padded to two digits, i.e. it coincides with the spec-shaped
`spec_duration_format`. -/
theorem duration_format_matches_spec (q : ℚ) (h : 0 ≤ q) :
    duration_str q = spec_duration_format q := by
  have h60 : (0:ℚ) < 60 := by norm_num
  have hk0 : (0:ℤ) ≤ ⌊q / 60⌋ := Int.floor_nonneg.mpr (by positivity)
  have hklow : (⌊q / 60⌋ : ℚ) ≤ q / 60 := Int.floor_le (q / 60)
  have hkhigh : q / 60 < ⌊q / 60⌋ + 1 := Int.lt_floor_add_one (q / 60)
  have hlow : (60 : ℚ) * ⌊q / 60⌋ ≤ q := by
    have := (le_div_iff₀ h60).mp hklow
    linarith
  have hhigh : q < 60 * (⌊q / 60⌋ + 1) := by
    have := (div_lt_iff₀ h60).mp hkhigh
    linarith
  have hnlow : 60 * ⌊q / 60⌋ ≤ ⌊q⌋ := by
    rw [Int.le_floor]
    push_cast
    linarith
  have hnhigh : ⌊q⌋ < 60 * ⌊q / 60⌋ + 60 := by
    rw [Int.floor_lt]
    push_cast
    linarith
  have hmin : pyInt (pyFloorDiv q 60) = ⌊q / 60⌋ := by
    rw [pyFloorDiv, pyInt, if_pos (by exact_mod_cast hk0)]
    exact Int.floor_intCast _
  have hmod : pyMod q 60 = q - ((60 * ⌊q / 60⌋ : ℤ) : ℚ) := by
    rw [pyMod]
    push_cast
    ring
  have hsec : pyInt (pyMod q 60) = ⌊q⌋ % 60 := by
    rw [pyInt, if_pos]
    · rw [hmod, Int.floor_sub_int]
      omega
    · rw [hmod]
      push_cast
      linarith
  rw [duration_str, spec_duration_format, hmin, hsec]

/-- C7 witness: the general theorem instantiated at 125.4 s, together
with the three concrete examples of the claim: 125.4 s formats as
"2:05", 59.9 s as "0:59" and 0 s as "0:00". -/
theorem duration_format_witness :
    duration_str (1254/10) = spec_duration_format (1254/10) ∧
    duration_str (1254/10) = "2:05" ∧
    duration_str (599/10) = "0:59" ∧
    duration_str 0 = "0:00" := by
  refine ⟨duration_format_matches_spec (1254/10) (by norm_num), ?_, ?_, ?_⟩
  · norm_num [duration_str, pyInt, pyFloorDiv, pyMod, formatTwoDigits]; rfl
  · norm_num [duration_str, pyInt, pyFloorDiv, pyMod, formatTwoDigits]; rfl
  · norm_num [duration_str, pyInt, pyFloorDiv, pyMod, formatTwoDigits]; rfl

/-- C6: the vocabulary dimension contributes exactly v/100*20 to the
composite sum for every native 0-100 score v; in particular a native
score of 100 contributes exactly 20 and a native score of 0 contributes
exactly 0. -/
theorem vocabulary_contribution_exact :
    (∀ p m d e v : ℚ,
      overall_score_sum p m d e (vocabulary_rescale v) - overall_score_sum p m d e 0 =
        v / 100 * 20) ∧
    vocabulary_rescale 100 = 20 ∧ vocabulary_rescale 0 = 0 := by
  refine ⟨fun p m d e v => ?_, by norm_num [vocabulary_rescale],
    by norm_num [vocabulary_rescale]⟩
  simp only [overall_score_sum, vocabulary_rescale]
  ring

/-- C10: file-extension validation is case-insensitive in both handlers:
lower-casing the submitted filename does not change the validation
outcome, and concrete filenames whose extensions differ from allowed
ones only in letter case (".WAV", ".Mp3", ".OGG") are accepted. -/
theorem extension_validation_case_insensitive :
    (∀ f : String, validate_audio (some (pyLowerString f)) = validate_audio (some f)) ∧
    (∀ f : String, validate_audio_v2 (some (pyLowerString f)) = validate_audio_v2 (some f)) ∧
    validate_audio (some "talk.WAV") = .ok () ∧
    validate_audio (some "talk.Mp3") = .ok () ∧
    validate_audio_v2 (some "clip.OGG") = .ok () :=
  ⟨validate_audio_lower, validate_audio_v2_lower, rfl, rfl, rfl⟩

/-- C8: on every exit path of both analyze handlers the staged temporary
audio file no longer exists when the invocation completes, and it is
released exactly once whenever it was staged (i.e. whenever validation
passed) and zero times otherwise (when nothing was staged). -/
theorem staged_resource_released_every_path :
    (∀ (req : AnalyzeRequest) (o : AnalyzeOracle),
      (analyze_speech req o).2.onDisk = false ∧
      (analyze_speech req o).2.releases =
        (if (validate_audio req.filename).isOk then 1 else 0)) ∧
    (∀ (fn : Option String) (o : AnalyzeOracleV2),
      (analyze_speech_v2 fn o).2.onDisk = false ∧
      (analyze_speech_v2 fn o).2.releases =
        (if (validate_audio_v2 fn).isOk then 1 else 0)) := by
  constructor
  · intro req o
    cases hv : validate_audio req.filename with
    | ok u =>
      cases u
      constructor <;> simp [analyze_speech, hv, finally_cleanup, Except.isOk, Except.toBool]
    | error e =>
      constructor <;> simp [analyze_speech, hv, finally_cleanup, Except.isOk, Except.toBool]
  · intro fn o
    cases hv : validate_audio_v2 fn with
    | ok u =>
      cases u
      constructor <;> simp [analyze_speech_v2, hv, finally_cleanup, Except.isOk, Except.toBool]
    | error e =>
      constructor <;> simp [analyze_speech_v2, hv, finally_cleanup, Except.isOk, Except.toBool]

/-- C3 evaluation theorem: a `.txt` upload and a missing filename are
both answered with HTTP 500, not 400: the handler's blanket
`except Exception` clause catches its own `HTTPException(400, ...)` and
re-raises it as `HTTPException(500, "Analysis failed: 400: ...")`.
Allow-listed extensions do pass validation. -/
theorem invalid_format_surfaces_as_500 :
    (analyze_speech { sampleRequest with filename := some "speech.txt" } sampleOracle).1 =
      .err 500 "Analysis failed: 400: Invalid file type. Allowed: .wav, .mp3, .m4a, .flac, .ogg" ∧
    (analyze_speech { sampleRequest with filename := none } sampleOracle).1 =
      .err 500 "Analysis failed: 400: No audio file provided" ∧
    validate_audio (some "speech.wav") = .ok () :=
  ⟨rfl, rfl, rfl⟩

/-- C9 evaluation theorem: every save request whose JSON body parses is
answered with HTTP 500 carrying the `NameError` message, because the
name `firestore` used at `src/backend/app/main.py:313` is not bound
anywhere in the module; the promised success body with the assigned
document id is unreachable. -/
theorem save_speech_always_name_error :
    save_speech_to_firebase "user-1" "{}" (.ok "{}") "doc-abc123" =
      .err 500 "Failed to save speech: name 'firestore' is not defined" ∧
    (∀ u s p d : String,
      save_speech_to_firebase u s (.ok p) d =
        .err 500 "Failed to save speech: name 'firestore' is not defined") :=
  ⟨rfl, fun _ _ _ _ => rfl⟩

/-- C1: for every invocation in which validation passes and all stages
succeed with dimension scores in [0,20] (vocabulary after its 0-100 to
0-20 rescale), the computed overall score is exactly the unweighted sum
of the five dimension scores, lies in [0,100], and the reported value is
that sum rounded to one decimal place. -/
theorem overall_score_exact_sum_and_range
    (req : AnalyzeRequest) (o : AnalyzeOracle)
    (tr : TranscriptionData) (dur : ℚ) (fa : FillerData) (pa : String)
    (pr : ProficiencyData) (ms : ModulationScores) (dv : DevelopmentData)
    (ef : EffectivenessData) (vc : VocabularyData)
    (hval : validate_audio req.filename = .ok ())
    (h1 : o.transcription = .ok tr) (h2 : o.load_duration = .ok dur)
    (h3 : o.filler = .ok fa) (h4 : o.pause = .ok pa)
    (h5 : o.proficiency = .ok pr) (h6 : o.modulation = .ok (.okDict ms))
    (h7 : o.development = .ok dv) (h8 : o.effectiveness = .ok ef)
    (h9 : o.vocabulary = .ok vc)
    (hp : 0 ≤ pr.final_score ∧ pr.final_score ≤ 20)
    (hm : 0 ≤ ms.total_score ∧ ms.total_score ≤ 20)
    (hd : 0 ≤ dv.structure_score + dv.time_utilization_score ∧
          dv.structure_score + dv.time_utilization_score ≤ 20)
    (he : 0 ≤ ef.total_score ∧ ef.total_score ≤ 20)
    (hv : 0 ≤ vocabulary_rescale vc.vocabulary_score ∧
          vocabulary_rescale vc.vocabulary_score ≤ 20) :
    (responseBody (analyze_speech req o).1).map (fun r => r.overall_score_unrounded) =
      some (overall_score_sum pr.final_score ms.total_score
        (dv.structure_score + dv.time_utilization_score) ef.total_score
        (vocabulary_rescale vc.vocabulary_score)) ∧
    0 ≤ overall_score_sum pr.final_score ms.total_score
        (dv.structure_score + dv.time_utilization_score) ef.total_score
        (vocabulary_rescale vc.vocabulary_score) ∧
    overall_score_sum pr.final_score ms.total_score
        (dv.structure_score + dv.time_utilization_score) ef.total_score
        (vocabulary_rescale vc.vocabulary_score) ≤ 100 ∧
    (responseBody (analyze_speech req o).1).map (fun r => r.overall_score) =
      some (pyRound 1 (overall_score_sum pr.final_score ms.total_score
        (dv.structure_score + dv.time_utilization_score) ef.total_score
        (vocabulary_rescale vc.vocabulary_score))) := by
  refine ⟨?_, ?_, ?_, ?_⟩
  · simp [analyze_speech, hval, run_pipeline, h1, h2, h3, h4, h5, h6, h7, h8, h9,
      except_bind_ok, backend_except_clause, responseBody]
  · simp only [overall_score_sum]
    linarith [hp.1, hm.1, hd.1, he.1, hv.1]
  · simp only [overall_score_sum]
    linarith [hp.2, hm.2, hd.2, he.2, hv.2]
  · simp [analyze_speech, hval, run_pipeline, h1, h2, h3, h4, h5, h6, h7, h8, h9,
      except_bind_ok, backend_except_clause, responseBody]

/-- C1 witness: the spec's worked scenario — scores 18, 15, 16 (8+8), 14
and vocabulary 17 on the native scale — yields the exact sum 66.4 = 332/5,
inside [0,100]. -/
theorem overall_score_witness :
    (responseBody (analyze_speech sampleRequest sampleOracle).1).map
      (fun r => r.overall_score_unrounded) = some (332/5) ∧
    (0:ℚ) ≤ 332/5 ∧ (332/5:ℚ) ≤ 100 := by
  have h := overall_score_exact_sum_and_range sampleRequest sampleOracle
    sampleTranscription 180 { total := 4, density := 1/50, perMinute := 8/5 } "pause payload"
    { final_score := 18, payload := "prof details" }
    { total_score := 15, payload := "mod details" }
    { structure_score := 8, time_utilization_score := 8, payload := "dev details" }
    { total_score := 14, payload := "eff details" }
    { vocabulary_score := 17, lexical_diversity := 3/5, unique_words := 120,
      advanced_vocab_count := 7, feedback := ["good range"] }
    rfl rfl rfl rfl rfl rfl rfl rfl rfl rfl
    (by norm_num) (by norm_num) (by norm_num) (by norm_num)
    (by norm_num [vocabulary_rescale])
  refine ⟨h.1.trans ?_, by norm_num, by norm_num⟩
  norm_num [overall_score_sum, vocabulary_rescale]

/-- C5: if the voice-modulation scorer reports failure and every other
stage succeeds, the invocation still completes with a 200 response whose
voice-modulation dimension carries the default raw score 10.0, status
`Defaulted`, and an emptied details payload. -/
theorem modulation_failure_defaulted_still_200
    (req : AnalyzeRequest) (o : AnalyzeOracle)
    (tr : TranscriptionData) (dur : ℚ) (fa : FillerData) (pa : String)
    (pr : ProficiencyData) (msg : String) (dv : DevelopmentData)
    (ef : EffectivenessData) (vc : VocabularyData)
    (hval : validate_audio req.filename = .ok ())
    (h1 : o.transcription = .ok tr) (h2 : o.load_duration = .ok dur)
    (h3 : o.filler = .ok fa) (h4 : o.pause = .ok pa)
    (h5 : o.proficiency = .ok pr) (h6 : o.modulation = .ok (.errorDict msg))
    (h7 : o.development = .ok dv) (h8 : o.effectiveness = .ok ef)
    (h9 : o.vocabulary = .ok vc) :
    isSuccess (analyze_speech req o).1 = true ∧
    (responseBody (analyze_speech req o).1).map (fun r => r.scores.voice_modulation) =
      some 10 ∧
    (responseBody (analyze_speech req o).1).map (fun r => r.voice_modulation_status) =
      some ScoreStatus.Defaulted ∧
    (responseBody (analyze_speech req o).1).map (fun r => r.voice_modulation_details) =
      some none := by
  refine ⟨?_, ?_, ?_, ?_⟩ <;>
    simp [analyze_speech, hval, run_pipeline, h1, h2, h3, h4, h5, h6, h7, h8, h9,
      except_bind_ok, backend_except_clause, responseBody, isSuccess, pyRound_one_ten]

/-- C5 witness: the theorem instantiated with the in-band modulation
failure oracle: the invocation is a 200 and the dimension is the default
10.0 with status `Defaulted`. -/
theorem modulation_failure_witness :
    isSuccess (analyze_speech sampleRequest oracleModulationFails).1 = true ∧
    (responseBody (analyze_speech sampleRequest oracleModulationFails).1).map
      (fun r => r.scores.voice_modulation) = some 10 ∧
    (responseBody (analyze_speech sampleRequest oracleModulationFails).1).map
      (fun r => r.voice_modulation_status) = some ScoreStatus.Defaulted := by
  have h := modulation_failure_defaulted_still_200 sampleRequest oracleModulationFails
    sampleTranscription 180 { total := 4, density := 1/50, perMinute := 8/5 } "pause payload"
    { final_score := 18, payload := "prof details" } "librosa decode failed"
    { structure_score := 8, time_utilization_score := 8, payload := "dev details" }
    { total_score := 14, payload := "eff details" }
    { vocabulary_score := 17, lexical_diversity := 3/5, unique_words := 120,
      advanced_vocab_count := 7, feedback := ["good range"] }
    rfl rfl rfl rfl rfl rfl rfl rfl rfl rfl
  exact ⟨h.1, h.2.1, h.2.2.1⟩

/-- C4 counterexample: when the voice-modulation stage computes a total
score of 25, the value entering the composite report is 25, outside
[0,20] — the aggregation applies no clamping. -/
theorem score_above_twenty_enters_report :
    (responseBody (analyze_speech sampleRequest oracleModulation25).1).map
      (fun r => r.scores.voice_modulation) = some 25 ∧
    ¬((25:ℚ) ≤ 20) := by
  have hval : validate_audio (some "speech.wav") = .ok () := rfl
  constructor
  · simp [analyze_speech, hval, run_pipeline, backend_except_clause, responseBody,
      except_bind_ok, sampleRequest, oracleModulation25, sampleOracle]
    norm_num [pyRound, roundHalfToEven]
  · norm_num

/-- C4 amended: the aggregation applies no clamping — every dimension
value enters the composite report exactly as its stage computed it
(vocabulary rescaled from the 0-100 scale, each value rounded to one
decimal for presentation), whatever its magnitude. -/
theorem raw_scores_enter_report_unclamped
    (req : AnalyzeRequest) (o : AnalyzeOracle)
    (tr : TranscriptionData) (dur : ℚ) (fa : FillerData) (pa : String)
    (pr : ProficiencyData) (ms : ModulationScores) (dv : DevelopmentData)
    (ef : EffectivenessData) (vc : VocabularyData)
    (hval : validate_audio req.filename = .ok ())
    (h1 : o.transcription = .ok tr) (h2 : o.load_duration = .ok dur)
    (h3 : o.filler = .ok fa) (h4 : o.pause = .ok pa)
    (h5 : o.proficiency = .ok pr) (h6 : o.modulation = .ok (.okDict ms))
    (h7 : o.development = .ok dv) (h8 : o.effectiveness = .ok ef)
    (h9 : o.vocabulary = .ok vc) :
    (responseBody (analyze_speech req o).1).map (fun r => r.scores) =
      some { proficiency := pyRound 1 pr.final_score
             voice_modulation := pyRound 1 ms.total_score
             speech_development :=
               pyRound 1 (dv.structure_score + dv.time_utilization_score)
             speech_effectiveness := pyRound 1 ef.total_score
             vocabulary := pyRound 1 (vocabulary_rescale vc.vocabulary_score) } ∧
    (responseBody (analyze_speech req o).1).map (fun r => r.overall_score_unrounded) =
      some (overall_score_sum pr.final_score ms.total_score
        (dv.structure_score + dv.time_utilization_score) ef.total_score
        (vocabulary_rescale vc.vocabulary_score)) := by
  constructor <;>
    simp [analyze_speech, hval, run_pipeline, h1, h2, h3, h4, h5, h6, h7, h8, h9,
      except_bind_ok, backend_except_clause, responseBody]

/-- C4 amended witness: the amended theorem instantiated at the oracle
whose modulation stage computes 25; the out-of-range value passes
through to the report unchanged. -/
theorem raw_scores_unclamped_witness :
    (responseBody (analyze_speech sampleRequest oracleModulation25).1).map
      (fun r => r.scores) =
      some { proficiency := pyRound 1 18
             voice_modulation := pyRound 1 25
             speech_development := pyRound 1 (8 + 8)
             speech_effectiveness := pyRound 1 14
             vocabulary := pyRound 1 (vocabulary_rescale 17) } :=
  (raw_scores_enter_report_unclamped sampleRequest oracleModulation25
    sampleTranscription 180 { total := 4, density := 1/50, perMinute := 8/5 } "pause payload"
    { final_score := 18, payload := "prof details" }
    { total_score := 25, payload := "mod details" }
    { structure_score := 8, time_utilization_score := 8, payload := "dev details" }
    { total_score := 14, payload := "eff details" }
    { vocabulary_score := 17, lexical_diversity := 3/5, unique_words := 120,
      advanced_vocab_count := 7, feedback := ["good range"] }
    rfl rfl rfl rfl rfl rfl rfl rfl rfl rfl).1

/-- C2 counterexample: a proficiency-scorer exception is not replaced by
a default score; the invocation aborts and surfaces as a 500
request-level error, contradicting the claim that any scorer failure
other than transcription completes normally. -/
theorem proficiency_failure_aborts_request :
    (analyze_speech sampleRequest oracleProficiencyFails).1 =
      .err 500 "Analysis failed: proficiency scorer crashed" ∧
    isSuccess (analyze_speech sampleRequest oracleProficiencyFails).1 = false :=
  ⟨rfl, rfl⟩

/-- C2 amended: only the voice-modulation stage is failure-isolated, and
only against its in-band error dict — such a failure is replaced by the
default score 10.0 and the invocation completes normally.  An exception
raised by any other scorer stage (filler-word, pause, proficiency,
speech development, speech effectiveness, vocabulary), or by the
voice-modulation call itself, aborts the invocation and surfaces as a
500 request-level error. -/
theorem only_modulation_failure_is_isolated :
    (∀ (req : AnalyzeRequest) (o : AnalyzeOracle) (tr : TranscriptionData) (dur : ℚ)
        (fa : FillerData) (pa : String) (pr : ProficiencyData) (msg : String)
        (dv : DevelopmentData) (ef : EffectivenessData) (vc : VocabularyData),
      validate_audio req.filename = .ok () →
      o.transcription = .ok tr → o.load_duration = .ok dur → o.filler = .ok fa →
      o.pause = .ok pa → o.proficiency = .ok pr → o.modulation = .ok (.errorDict msg) →
      o.development = .ok dv → o.effectiveness = .ok ef → o.vocabulary = .ok vc →
      isSuccess (analyze_speech req o).1 = true ∧
      (responseBody (analyze_speech req o).1).map (fun r => r.scores.voice_modulation) =
        some 10) ∧
    (∀ (req : AnalyzeRequest) (o : AnalyzeOracle) (tr : TranscriptionData) (dur : ℚ)
        (e : PyExc),
      validate_audio req.filename = .ok () →
      o.transcription = .ok tr → o.load_duration = .ok dur → o.filler = .error e →
      (analyze_speech req o).1 = .err 500 ("Analysis failed: " ++ pyStr e)) ∧
    (∀ (req : AnalyzeRequest) (o : AnalyzeOracle) (tr : TranscriptionData) (dur : ℚ)
        (fa : FillerData) (e : PyExc),
      validate_audio req.filename = .ok () →
      o.transcription = .ok tr → o.load_duration = .ok dur → o.filler = .ok fa →
      o.pause = .error e →
      (analyze_speech req o).1 = .err 500 ("Analysis failed: " ++ pyStr e)) ∧
    (∀ (req : AnalyzeRequest) (o : AnalyzeOracle) (tr : TranscriptionData) (dur : ℚ)
        (fa : FillerData) (pa : String) (e : PyExc),
      validate_audio req.filename = .ok () →
      o.transcription = .ok tr → o.load_duration = .ok dur → o.filler = .ok fa →
      o.pause = .ok pa → o.proficiency = .error e →
      (analyze_speech req o).1 = .err 500 ("Analysis failed: " ++ pyStr e)) ∧
    (∀ (req : AnalyzeRequest) (o : AnalyzeOracle) (tr : TranscriptionData) (dur : ℚ)
        (fa : FillerData) (pa : String) (pr : ProficiencyData) (e : PyExc),
      validate_audio req.filename = .ok () →
      o.transcription = .ok tr → o.load_duration = .ok dur → o.filler = .ok fa →
      o.pause = .ok pa → o.proficiency = .ok pr → o.modulation = .error e →
      (analyze_speech req o).1 = .err 500 ("Analysis failed: " ++ pyStr e)) ∧
    (∀ (req : AnalyzeRequest) (o : AnalyzeOracle) (tr : TranscriptionData) (dur : ℚ)
        (fa : FillerData) (pa : String) (pr : ProficiencyData) (mr : ModulationData)
        (e : PyExc),
      validate_audio req.filename = .ok () →
      o.transcription = .ok tr → o.load_duration = .ok dur → o.filler = .ok fa →
      o.pause = .ok pa → o.proficiency = .ok pr → o.modulation = .ok mr →
      o.development = .error e →
      (analyze_speech req o).1 = .err 500 ("Analysis failed: " ++ pyStr e)) ∧
    (∀ (req : AnalyzeRequest) (o : AnalyzeOracle) (tr : TranscriptionData) (dur : ℚ)
        (fa : FillerData) (pa : String) (pr : ProficiencyData) (mr : ModulationData)
        (dv : DevelopmentData) (e : PyExc),
      validate_audio req.filename = .ok () →
      o.transcription = .ok tr → o.load_duration = .ok dur → o.filler = .ok fa →
      o.pause = .ok pa → o.proficiency = .ok pr → o.modulation = .ok mr →
      o.development = .ok dv → o.effectiveness = .error e →
      (analyze_speech req o).1 = .err 500 ("Analysis failed: " ++ pyStr e)) ∧
    (∀ (req : AnalyzeRequest) (o : AnalyzeOracle) (tr : TranscriptionData) (dur : ℚ)
        (fa : FillerData) (pa : String) (pr : ProficiencyData) (mr : ModulationData)
        (dv : DevelopmentData) (ef : EffectivenessData) (e : PyExc),
      validate_audio req.filename = .ok () →
      o.transcription = .ok tr → o.load_duration = .ok dur → o.filler = .ok fa →
      o.pause = .ok pa → o.proficiency = .ok pr → o.modulation = .ok mr →
      o.development = .ok dv → o.effectiveness = .ok ef → o.vocabulary = .error e →
      (analyze_speech req o).1 = .err 500 ("Analysis failed: " ++ pyStr e)) := by
  refine ⟨?_, ?_, ?_, ?_, ?_, ?_, ?_, ?_⟩
  · intro req o tr dur fa pa pr msg dv ef vc hval h1 h2 h3 h4 h5 h6 h7 h8 h9
    constructor <;>
      simp [analyze_speech, hval, run_pipeline, h1, h2, h3, h4, h5, h6, h7, h8, h9,
        except_bind_ok, backend_except_clause, responseBody, isSuccess, pyRound_one_ten]
  · intro req o tr dur e hval h1 h2 h3
    simp [analyze_speech, hval, run_pipeline, h1, h2, h3,
      except_bind_ok, except_bind_error, backend_except_clause]
  · intro req o tr dur fa e hval h1 h2 h3 h4
    simp [analyze_speech, hval, run_pipeline, h1, h2, h3, h4,
      except_bind_ok, except_bind_error, backend_except_clause]
  · intro req o tr dur fa pa e hval h1 h2 h3 h4 h5
    simp [analyze_speech, hval, run_pipeline, h1, h2, h3, h4, h5,
      except_bind_ok, except_bind_error, backend_except_clause]
  · intro req o tr dur fa pa pr e hval h1 h2 h3 h4 h5 h6
    simp [analyze_speech, hval, run_pipeline, h1, h2, h3, h4, h5, h6,
      except_bind_ok, except_bind_error, backend_except_clause]
  · intro req o tr dur fa pa pr mr e hval h1 h2 h3 h4 h5 h6 h7
    simp [analyze_speech, hval, run_pipeline, h1, h2, h3, h4, h5, h6, h7,
      except_bind_ok, except_bind_error, backend_except_clause]
  · intro req o tr dur fa pa pr mr dv e hval h1 h2 h3 h4 h5 h6 h7 h8
    simp [analyze_speech, hval, run_pipeline, h1, h2, h3, h4, h5, h6, h7, h8,
      except_bind_ok, except_bind_error, backend_except_clause]
  · intro req o tr dur fa pa pr mr dv ef e hval h1 h2 h3 h4 h5 h6 h7 h8 h9
    simp [analyze_speech, hval, run_pipeline, h1, h2, h3, h4, h5, h6, h7, h8, h9,
      except_bind_ok, except_bind_error, backend_except_clause]

/-- C2 amended witness: the amended theorem instantiated twice — a raised
vocabulary-scorer exception surfaces as a 500 error, while an in-band
voice-modulation failure still completes with a 200. -/
theorem only_modulation_isolated_witness :
    (analyze_speech sampleRequest oracleVocabularyFails).1 =
      .err 500 "Analysis failed: vocabulary scorer crashed" ∧
    isSuccess (analyze_speech sampleRequest oracleModulationFails).1 = true := by
  constructor
  · exact only_modulation_failure_is_isolated.2.2.2.2.2.2.2 sampleRequest
      oracleVocabularyFails sampleTranscription 180
      { total := 4, density := 1/50, perMinute := 8/5 } "pause payload"
      { final_score := 18, payload := "prof details" }
      (.okDict { total_score := 15, payload := "mod details" })
      { structure_score := 8, time_utilization_score := 8, payload := "dev details" }
      { total_score := 14, payload := "eff details" }
      (.exc "vocabulary scorer crashed")
      rfl rfl rfl rfl rfl rfl rfl rfl rfl rfl
  · exact (only_modulation_failure_is_isolated.1 sampleRequest oracleModulationFails
      sampleTranscription 180 { total := 4, density := 1/50, perMinute := 8/5 } "pause payload"
      { final_score := 18, payload := "prof details" } "librosa decode failed"
      { structure_score := 8, time_utilization_score := 8, payload := "dev details" }
      { total_score := 14, payload := "eff details" }
      { vocabulary_score := 17, lexical_diversity := 3/5, unique_words := 120,
        advanced_vocab_count := 7, feedback := ["good range"] }
      rfl rfl rfl rfl rfl rfl rfl rfl rfl rfl).1
